import Mathlib

/-!
Verification of the chat application's client layer (`src/lib/surrealdb.ts`
and `src/components/Chat.tsx`) against its natural-language specification.

The repository is a browser UI in front of an external SurrealDB instance.
We shallowly embed the client code: the external database is modelled as the
append-ordered record store the code's schema sets up (a `messages` table
whose `timestamp` field is assigned from a monotone clock, live queries that
fire a callback per created record, `kill` that removes a live query by id).
All logic that lives in the repository (validation guards, the retry loop in
`connect`, the sort/slice in `getMessages`, the live-event filter, the UI
handlers `joinChat`/`sendMessage`) is translated statement by statement.
-/

/-- A stored chat record (`ChatMessage` in `src/lib/surrealdb.ts`).
`id` is the record id and `timestamp` the creation time, both modelled by the
value of a monotone logical clock at append time. -/
structure ChatMessage where
  id : Nat
  username : String
  message : String
  timestamp : Nat
deriving DecidableEq, Repr

/-- Errors the service layer can actually throw.  `notConnected` is the
`throw new Error('Database not connected')` guard; `dbError` stands for an
error propagated from the database client. -/
inductive SvcError where
  | notConnected
  | dbError (msg : String)
deriving DecidableEq, Repr

/-- Combined state of the `SurrealDBService` singleton and the modelled
database backend: the `connected` flag, the `messages` table in append order,
the logical clock used for record ids / timestamps, the set of registered
live-query ids, and the id counter for fresh live queries. -/
structure SvcState where
  connected : Bool
  log : List ChatMessage
  clock : Nat
  live : List Nat
  nextUuid : Nat
deriving DecidableEq, Repr

namespace SurrealDBService

/-- The record `db.create('messages', {username, message, timestamp: new Date()})`
stores: id and timestamp taken from the clock at creation time. -/
def mkRecord (st : SvcState) (username message : String) : ChatMessage :=
  ⟨st.clock, username, message, st.clock⟩

/-- `this.db.create('messages', …)`: append the record and advance the clock. -/
def dbCreate (st : SvcState) (username message : String) :
    ChatMessage × SvcState :=
  (mkRecord st username message,
   { st with log := st.log ++ [mkRecord st username message],
             clock := st.clock + 1 })

/-- `SurrealDBService.sendMessage` (src/lib/surrealdb.ts:118-135): throws
`Database not connected` when the flag is down; otherwise creates the record
and returns it wrapped in a singleton array.  No validation of
`username`/`message` is performed anywhere in the method. -/
def sendMessage (st : SvcState) (username message : String) :
    Except SvcError (List ChatMessage) × SvcState :=
  if st.connected then
    let (rec, st') := dbCreate st username message
    (.ok [rec], st')
  else
    (.error .notConnected, st)

/-- The JavaScript comparator
`(a, b) => new Date(a.timestamp).getTime() - new Date(b.timestamp).getTime()`:
ascending by timestamp.  `Array.prototype.sort` is stable, as is
`List.mergeSort`. -/
def tsLe (a b : ChatMessage) : Bool :=
  a.timestamp ≤ b.timestamp

/-- `Array.prototype.slice(-limit)`: the last `limit` elements — except that
`slice(-0)` is `slice(0)`, the whole array. -/
def jsSliceLast (limit : Nat) (l : List ChatMessage) : List ChatMessage :=
  if limit = 0 then l else l.drop (l.length - limit)

/-- The pure core of `getMessages`: sort the selected records by timestamp
ascending, then `slice(-limit)`. -/
def getMessagesPure (limit : Nat) (stored : List ChatMessage) : List ChatMessage :=
  jsSliceLast limit (stored.mergeSort tsLe)

/-- `SurrealDBService.getMessages` (src/lib/surrealdb.ts:137-156): throws when
not connected, otherwise selects all of `messages`, sorts by timestamp and
keeps the last `limit` (default 50).  Database errors are caught and turned
into `[]`; in the model `select` always succeeds. -/
def getMessages (st : SvcState) (limit : Nat := 50) :
    Except SvcError (List ChatMessage) :=
  if st.connected then .ok (getMessagesPure limit st.log)
  else .error .notConnected

/-- The live-query handler (src/lib/surrealdb.ts:166-170):
`if (action === 'CREATE' && result) { callback(result) }`.
Returns the record handed to the callback, or `none` when the callback is not
invoked. -/
def liveHandlerFires (action : String) (result : Option ChatMessage) :
    Option ChatMessage :=
  if action = "CREATE" then
    match result with
    | some r => some r
    | none => none
  else none

/-- `SurrealDBService.subscribeToMessages` (src/lib/surrealdb.ts:159-177):
throws when not connected, otherwise registers a live query and returns its
id. -/
def subscribeToMessages (st : SvcState) :
    Except SvcError Nat × SvcState :=
  if st.connected then
    (.ok st.nextUuid,
     { st with live := st.live ++ [st.nextUuid], nextUuid := st.nextUuid + 1 })
  else
    (.error .notConnected, st)

/-- The backend's `KILL`: removes the live query with the given id if it is
registered, otherwise reports an error. -/
def dbKill (uuid : Nat) (live : List Nat) : Except String (List Nat) :=
  if uuid ∈ live then .ok (live.filter (fun u => u ≠ uuid))
  else .error "KILL statement: live query id does not exist"

/-- `SurrealDBService.unsubscribe` (src/lib/surrealdb.ts:179-186): calls
`db.kill` and swallows any error (`catch` only logs).  It never throws to the
caller, so its result is just the new state. -/
def unsubscribe (st : SvcState) (uuid : Nat) : SvcState :=
  match dbKill uuid st.live with
  | .ok live' => { st with live := live' }
  | .error _ => st

/-- The set of live queries whose callback the backend invokes when a record
is created: all currently registered ones. -/
def liveTargets (st : SvcState) : List Nat :=
  st.live

end SurrealDBService

/-- JavaScript `String.prototype.trim`: the string with leading and trailing
whitespace removed. -/
def jsTrim (s : String) : String :=
  ⟨((s.data.dropWhile Char.isWhitespace).reverse.dropWhile Char.isWhitespace).reverse⟩

namespace Chat

/-- The React component state of `Chat` (src/components/Chat.tsx) that the
send/join handlers read and write. -/
structure UiState where
  messages : List ChatMessage
  newMessage : String
  username : String
  isConnected : Bool
  isJoined : Bool
deriving DecidableEq, Repr

/-- What a call to the UI `sendMessage` handler does, as seen by its caller:
silently return early, send and clear the input, or catch a service error
(logged only). -/
inductive SendOutcome where
  | ignored
  | sent (stored : List ChatMessage)
  | errored (e : SvcError)
deriving DecidableEq, Repr

/-- `Chat.sendMessage` (src/components/Chat.tsx:72-83):
`if (!newMessage.trim() || !isJoined || !isConnected) return;` then
`await surrealDB.sendMessage(username, newMessage.trim()); setNewMessage('')`,
with any thrown error caught and only logged. -/
def sendMessage (ui : UiState) (st : SvcState) :
    SendOutcome × UiState × SvcState :=
  if jsTrim ui.newMessage = "" ∨ ui.isJoined = false ∨ ui.isConnected = false then
    (.ignored, ui, st)
  else
    match SurrealDBService.sendMessage st ui.username (jsTrim ui.newMessage) with
    | (.ok stored, st') => (.sent stored, { ui with newMessage := "" }, st')
    | (.error e, st') => (.errored e, ui, st')

/-- What a call to the UI `joinChat` handler does, as seen by its caller. -/
inductive JoinOutcome where
  | ignored
  | joined (uuid : Nat)
  | errored (e : SvcError)
deriving DecidableEq, Repr

/-- `Chat.joinChat` (src/components/Chat.tsx:56-69):
`if (!username.trim() || !isConnected) return;` then subscribe and
`setIsJoined(true)`, with any thrown error caught and only logged. -/
def joinChat (ui : UiState) (st : SvcState) :
    JoinOutcome × UiState × SvcState :=
  if jsTrim ui.username = "" ∨ ui.isConnected = false then
    (.ignored, ui, st)
  else
    match SurrealDBService.subscribeToMessages st with
    | (.ok uuid, st') => (.joined uuid, { ui with isJoined := true }, st')
    | (.error e, st') => (.errored e, ui, st')

end Chat

namespace SurrealDBService

/-- One entry of the `connectionConfigs` list in `connect`
(src/lib/surrealdb.ts:20-28). -/
structure ConnConfig where
  url : String
  type : String
deriving DecidableEq, Repr

/-- The fixed list of URL/transport combinations `connect` iterates over. -/
def connectionConfigs : List ConnConfig :=
  [⟨"ws://localhost:8000/rpc", "WebSocket"⟩,
   ⟨"http://localhost:8000/rpc", "HTTP"⟩,
   ⟨"ws://127.0.0.1:8000/rpc", "WebSocket"⟩,
   ⟨"http://127.0.0.1:8000/rpc", "HTTP"⟩,
   ⟨"ws://localhost:8000", "WebSocket-Basic"⟩,
   ⟨"http://localhost:8000", "HTTP-Basic"⟩]

/-- Environment oracle for one iteration of the `connect` loop: the outcome
of each awaited stage of the attempt body, per configuration
(`db.connect`, `db.signin`, `db.use`, the `INFO DB` test query, and the
schema-setup query). -/
structure AttemptEnv where
  connectRes : ConnConfig → Except String Unit
  signinRes : ConnConfig → Except String Unit
  useRes : ConnConfig → Except String Unit
  infoRes : ConnConfig → Except String Unit
  schemaRes : ConnConfig → Except String Unit

/-- The body of one loop iteration (src/lib/surrealdb.ts:33-69): the stages
run in order and the first one that throws aborts the attempt with its
error message. -/
def tryConfig (env : AttemptEnv) (c : ConnConfig) : Except String Unit := do
  env.connectRes c
  env.signinRes c
  env.useRes c
  env.infoRes c
  env.schemaRes c

/-- The string pushed onto `errors` for a failed attempt:
`${config.url} (${config.type}): ${errorMessage}`. -/
def attemptErrorEntry (c : ConnConfig) (msg : String) : String :=
  c.url ++ " (" ++ c.type ++ "): " ++ msg

/-- The message of the single `Error` thrown after all attempts fail
(src/lib/surrealdb.ts:103): it embeds only `errors[errors.length - 1]`. -/
def finalFailureMessage (errs : List String) : String :=
  "All connection attempts failed. Server is running, but client connection failed. Check browser console for detailed errors. Last error: "
    ++ (errs.getLast?.getD "Unknown")

/-- One attempted configuration as recorded by a run of the loop: which
config, how its body ended, and whether the partial connection was closed
afterwards (the `catch` block closes it, ignoring close errors). -/
structure AttemptRecord where
  cfg : ConnConfig
  outcome : Except String Unit
  closedAfter : Bool

/-- Result of `connect`: either it returns after some configuration's
attempt succeeded, or it throws the aggregate error. -/
inductive ConnectResult where
  | success (cfg : ConnConfig)
  | failure (msg : String)
deriving DecidableEq, Repr

/-- The `for (const config of connectionConfigs)` loop of `connect`,
carrying the `errors` accumulator; produces the trace of attempts and the
result. -/
def connectFrom (env : AttemptEnv) :
    List ConnConfig → List String → List AttemptRecord × ConnectResult
  | [], errs => ([], .failure (finalFailureMessage errs))
  | c :: rest, errs =>
    match tryConfig env c with
    | .ok _ => ([⟨c, .ok (), false⟩], .success c)
    | .error e =>
      let r := connectFrom env rest (errs ++ [attemptErrorEntry c e])
      (⟨c, .error e, true⟩ :: r.1, r.2)

/-- `SurrealDBService.connect` (src/lib/surrealdb.ts:19-105). -/
def connect (env : AttemptEnv) : List AttemptRecord × ConnectResult :=
  connectFrom env connectionConfigs []

end SurrealDBService

/-- The client system around the join boundary: the service/database state,
the component's `subscriptionRef`, its `messages` state (`view`), and its
`isJoined` flag. -/
structure ClientSys where
  svc : SvcState
  subUuid : Option Nat
  view : List ChatMessage
  isJoined : Bool
deriving DecidableEq, Repr

/-- Events that can interleave around the join boundary: another client's
record creation (which fires the registered live queries), the history
snapshot read of `initConnection` (src/components/Chat.tsx:29-31), and the
subscription registration of `joinChat` (src/components/Chat.tsx:60-65). -/
inductive JoinEvent where
  | extCreate (username message : String)
  | snapshotRead
  | subscribeLive

/-- One step of the client system.  On `extCreate` the backend stores the
record and notifies the component's live query (if registered) with action
`CREATE`; the component's callback appends the record to `messages`.
`snapshotRead` replaces `messages` with `getMessages()` (default limit 50).
`subscribeLive` registers the live query and sets `isJoined`. -/
def stepEvent (s : ClientSys) : JoinEvent → ClientSys
  | .extCreate u m =>
    let stored := SurrealDBService.mkRecord s.svc u m
    let delivered : Option ChatMessage :=
      match s.subUuid with
      | some uuid =>
        if uuid ∈ s.svc.live then
          SurrealDBService.liveHandlerFires "CREATE" (some stored)
        else none
      | none => none
    { s with svc := (SurrealDBService.dbCreate s.svc u m).2,
             view := s.view ++ delivered.toList }
  | .snapshotRead =>
    match SurrealDBService.getMessages s.svc 50 with
    | .ok msgs => { s with view := msgs }
    | .error _ => s
  | .subscribeLive =>
    match SurrealDBService.subscribeToMessages s.svc with
    | (.ok uuid, svc') =>
      { s with svc := svc', subUuid := some uuid, isJoined := true }
    | (.error _, svc') => { s with svc := svc' }

/-- Run a schedule of events. -/
def runEvents : List JoinEvent → ClientSys → ClientSys
  | [], s => s
  | e :: es, s => runEvents es (stepEvent s e)

/-- State right after a successful `connect` with an empty `messages` table:
connected, empty log, clock at 1, no live queries, component not joined. -/
def initSys : ClientSys :=
  ⟨⟨true, [], 1, [], 0⟩, none, [], false⟩

/-- A list of external record creations as a schedule. -/
def appendEvents (ps : List (String × String)) : List JoinEvent :=
  ps.map fun p => .extCreate p.1 p.2

/-- The records that a run of consecutive creations starting at clock value
`c` stores: ids and timestamps `c, c+1, …`. -/
def mkMsgs (c : Nat) : List (String × String) → List ChatMessage
  | [] => []
  | p :: ps => ⟨c, p.1, p.2, c⟩ :: mkMsgs (c + 1) ps

/-- C9: `unsubscribe` is idempotent — a second call on the same live-query id
changes nothing further (the backend's error for the already-killed id is
caught and only logged, so nothing is raised to the caller, whose result type
carries no error channel) — and after it returns the id is no longer among
the live-query targets the backend notifies, so no further callback
invocations for that subscription occur; the rest of the state (flag, log,
clock) is untouched. -/
theorem unsubscribe_idempotent_stops_delivery (st : SvcState) (uuid : Nat) :
    SurrealDBService.unsubscribe (SurrealDBService.unsubscribe st uuid) uuid =
      SurrealDBService.unsubscribe st uuid
    ∧ uuid ∉ SurrealDBService.liveTargets (SurrealDBService.unsubscribe st uuid)
    ∧ (SurrealDBService.unsubscribe st uuid).connected = st.connected
    ∧ (SurrealDBService.unsubscribe st uuid).log = st.log := by
  unfold SurrealDBService.unsubscribe SurrealDBService.dbKill
    SurrealDBService.liveTargets
  by_cases h : uuid ∈ st.live
  · simp [h, List.mem_filter]
  · simp [h]

/-- C10: the live-query handler invokes the consumer's callback exactly when
the event's action is `CREATE` and its record payload is non-null, and then
hands over exactly that record; events for any other action are never
forwarded. -/
theorem liveHandler_fires_iff_create (action : String)
    (result : Option ChatMessage) (m : ChatMessage) :
    SurrealDBService.liveHandlerFires action result = some m ↔
      action = "CREATE" ∧ result = some m := by
  unfold SurrealDBService.liveHandlerFires
  by_cases h : action = "CREATE" <;> cases result <;> simp [h]

/-- Concrete instance of `liveHandler_fires_iff_create`: a `CREATE` event
with a record is forwarded unchanged. -/
theorem liveHandler_fires_iff_create_witness :
    SurrealDBService.liveHandlerFires "CREATE" (some ⟨1, "alice", "hi", 1⟩) =
      some ⟨1, "alice", "hi", 1⟩ :=
  (liveHandler_fires_iff_create "CREATE" (some ⟨1, "alice", "hi", 1⟩)
    ⟨1, "alice", "hi", 1⟩).mpr ⟨rfl, rfl⟩

/-- C3 counterexample: with the service connected, `sendMessage` called with
empty author and empty body raises no `ValidationError` — it stores the
record and returns it. -/
theorem sendMessage_accepts_empty_cex :
    (SurrealDBService.sendMessage ⟨true, [], 1, [], 0⟩ "" "").1 =
      .ok [⟨1, "", "", 1⟩]
    ∧ (SurrealDBService.sendMessage ⟨true, [], 1, [], 0⟩ "" "").2.log =
      [⟨1, "", "", 1⟩] :=
  ⟨rfl, rfl⟩

/-- C3 amended: the service performs no validation at all — for every author
and body (empty or arbitrarily large included), a connected `sendMessage`
stores exactly one record stamped with the current clock value (the next
position) and returns it; the only refusal of an empty body lives in the UI
handler, which silently returns without calling the service. -/
theorem sendMessage_no_validation (st : SvcState) (u m : String)
    (h : st.connected = true) :
    SurrealDBService.sendMessage st u m =
      (.ok [⟨st.clock, u, m, st.clock⟩],
       { st with log := st.log ++ [⟨st.clock, u, m, st.clock⟩],
                 clock := st.clock + 1 })
    ∧ (∀ ui svc, jsTrim ui.newMessage = "" →
        Chat.sendMessage ui svc = (.ignored, ui, svc)) := by
  constructor
  · unfold SurrealDBService.sendMessage SurrealDBService.dbCreate
      SurrealDBService.mkRecord
    simp [h]
  · intro ui svc htrim
    unfold Chat.sendMessage
    simp [htrim]

/-- Concrete instance of `sendMessage_no_validation`. -/
theorem sendMessage_no_validation_witness :
    SurrealDBService.sendMessage ⟨true, [], 5, [], 0⟩ "zoe" "hey" =
      (.ok [⟨5, "zoe", "hey", 5⟩], ⟨true, [⟨5, "zoe", "hey", 5⟩], 6, [], 0⟩)
    ∧ Chat.sendMessage ⟨[], " ", "zoe", true, true⟩ ⟨true, [], 5, [], 0⟩ =
      (.ignored, ⟨[], " ", "zoe", true, true⟩, ⟨true, [], 5, [], 0⟩) :=
  ⟨(sendMessage_no_validation ⟨true, [], 5, [], 0⟩ "zoe" "hey" rfl).1,
   (sendMessage_no_validation ⟨true, [], 5, [], 0⟩ "zoe" "hey" rfl).2
     ⟨[], " ", "zoe", true, true⟩ ⟨true, [], 5, [], 0⟩ rfl⟩

/-- C4 counterexample: a send attempted before a successful join
(`isJoined = false`) is silently ignored — the handler returns early with no
error of any kind (in particular no `InvalidStateError`, which does not
exist in the code) and appends nothing. -/
theorem send_not_joined_silent_cex :
    Chat.sendMessage ⟨[], "hello", "alice", true, false⟩ ⟨true, [], 1, [], 0⟩ =
      (.ignored, ⟨[], "hello", "alice", true, false⟩, ⟨true, [], 1, [], 0⟩) :=
  rfl

/-- C4 amended: a send outside the joined state appends nothing, but instead
of failing with an `InvalidStateError` the UI handler silently returns; the
only state check that throws is the service's connectivity guard, which
raises the generic `Database not connected` error and stores nothing. -/
theorem send_outside_active_ignored (ui : Chat.UiState) (st : SvcState)
    (u m : String) :
    (ui.isJoined = false → Chat.sendMessage ui st = (.ignored, ui, st))
    ∧ (st.connected = false →
        SurrealDBService.sendMessage st u m = (.error .notConnected, st)) := by
  constructor
  · intro h
    unfold Chat.sendMessage
    simp [h]
  · intro h
    unfold SurrealDBService.sendMessage
    simp [h]

/-- Concrete instance of `send_outside_active_ignored`. -/
theorem send_outside_active_ignored_witness :
    Chat.sendMessage ⟨[], "yo", "bob", true, false⟩ ⟨true, [], 3, [], 0⟩ =
      (.ignored, ⟨[], "yo", "bob", true, false⟩, ⟨true, [], 3, [], 0⟩)
    ∧ SurrealDBService.sendMessage ⟨false, [], 3, [], 0⟩ "bob" "yo" =
      (.error .notConnected, ⟨false, [], 3, [], 0⟩) :=
  ⟨(send_outside_active_ignored ⟨[], "yo", "bob", true, false⟩
      ⟨true, [], 3, [], 0⟩ "bob" "yo").1 rfl,
   (send_outside_active_ignored ⟨[], "yo", "bob", true, false⟩
      ⟨false, [], 3, [], 0⟩ "bob" "yo").2 rfl⟩

/-- C5 counterexample: a join attempt with the empty display name is
silently ignored — `joinChat` returns early with no `AuthError` (no such
error exists in the code), leaves `isJoined` false and registers no
subscriber. -/
theorem join_empty_name_silent_cex :
    Chat.joinChat ⟨[], "", "", true, false⟩ ⟨true, [], 1, [], 0⟩ =
      (.ignored, ⟨[], "", "", true, false⟩, ⟨true, [], 1, [], 0⟩) :=
  rfl

/-- C5 amended: a join attempt whose display name trims to the empty string
does not transition the session to joined and registers no subscriber — but
it raises no `AuthError`; the handler silently returns with every piece of
state unchanged. -/
theorem join_empty_name_ignored (ui : Chat.UiState) (st : SvcState)
    (h : jsTrim ui.username = "") :
    Chat.joinChat ui st = (.ignored, ui, st) := by
  unfold Chat.joinChat
  simp [h]

/-- Concrete instance of `join_empty_name_ignored`: a whitespace-only name
is also refused silently. -/
theorem join_empty_name_ignored_witness :
    Chat.joinChat ⟨[], "m", " ", true, false⟩ ⟨true, [], 1, [], 0⟩ =
      (.ignored, ⟨[], "m", " ", true, false⟩, ⟨true, [], 1, [], 0⟩) :=
  join_empty_name_ignored ⟨[], "m", " ", true, false⟩ ⟨true, [], 1, [], 0⟩ rfl

/-- C2 counterexample: with three stored messages and `limit = 2`, the read
cannot include the oldest stored message, yet `getMessages` returns a plain
truncated list — no `ReplayGapError`, no floor value, no error of any kind
(the code defines no such error). -/
theorem getMessages_silent_truncation_cex :
    SurrealDBService.getMessages
        ⟨true, [⟨1, "a", "one", 1⟩, ⟨2, "b", "two", 2⟩, ⟨3, "c", "three", 3⟩],
         4, [], 0⟩ 2 =
      .ok [⟨2, "b", "two", 2⟩, ⟨3, "c", "three", 3⟩]
    ∧ (⟨1, "a", "one", 1⟩ : ChatMessage) ∈
        ([⟨1, "a", "one", 1⟩, ⟨2, "b", "two", 2⟩, ⟨3, "c", "three", 3⟩] :
          List ChatMessage)
    ∧ (⟨1, "a", "one", 1⟩ : ChatMessage) ∉
        ([⟨2, "b", "two", 2⟩, ⟨3, "c", "three", 3⟩] : List ChatMessage) := by
  refine ⟨?_, by decide, by decide⟩
  unfold SurrealDBService.getMessages SurrealDBService.getMessagesPure
  rw [List.mergeSort_of_sorted (by decide)]
  rfl

/-- C2 amended: `getMessages` never signals a gap — it has no
`ReplayGapError` and reports no floor.  Every connected read succeeds with
the sorted log truncated to the newest `limit` entries, however many
matching messages fall outside that window; the only error the method can
throw is the connectivity guard. -/
theorem getMessages_never_reports_gap (st : SvcState) (limit : Nat)
    (h : st.connected = true) :
    SurrealDBService.getMessages st limit =
      .ok (SurrealDBService.getMessagesPure limit st.log) := by
  unfold SurrealDBService.getMessages
  simp [h]

/-- Concrete instance of `getMessages_never_reports_gap`. -/
theorem getMessages_never_reports_gap_witness :
    SurrealDBService.getMessages ⟨true, [⟨1, "a", "x", 1⟩], 2, [], 0⟩ 1 =
      .ok [⟨1, "a", "x", 1⟩] := by
  have h := getMessages_never_reports_gap ⟨true, [⟨1, "a", "x", 1⟩], 2, [], 0⟩ 1
    rfl
  rw [h]
  unfold SurrealDBService.getMessagesPure
  rw [List.mergeSort_of_sorted (by decide)]
  rfl

/-- C8 counterexample: `getMessages` has no cursor, and its cap keeps the
NEWEST `limit` messages, not the messages that follow the cursor: with three
stored messages the first two messages after sequence 0 are the two oldest,
but the code returns the two newest and drops the oldest entirely; moreover
with `limit = 0` the returned sequence is the whole store, so its length
exceeds the limit. -/
theorem getMessages_keeps_newest_cex :
    SurrealDBService.getMessagesPure 2
        [⟨1, "a", "one", 1⟩, ⟨2, "b", "two", 2⟩, ⟨3, "c", "three", 3⟩] =
      [⟨2, "b", "two", 2⟩, ⟨3, "c", "three", 3⟩]
    ∧ (([⟨1, "a", "one", 1⟩, ⟨2, "b", "two", 2⟩, ⟨3, "c", "three", 3⟩] :
          List ChatMessage).filter (fun m => decide (0 < m.id))).take 2 =
        [⟨1, "a", "one", 1⟩, ⟨2, "b", "two", 2⟩]
    ∧ (⟨1, "a", "one", 1⟩ : ChatMessage) ∉
        SurrealDBService.getMessagesPure 2
          [⟨1, "a", "one", 1⟩, ⟨2, "b", "two", 2⟩, ⟨3, "c", "three", 3⟩]
    ∧ (SurrealDBService.getMessagesPure 0
        [⟨1, "a", "one", 1⟩, ⟨2, "b", "two", 2⟩, ⟨3, "c", "three", 3⟩]).length =
        3 := by
  have hms : List.mergeSort
      [⟨1, "a", "one", 1⟩, ⟨2, "b", "two", 2⟩, ⟨3, "c", "three", 3⟩]
      SurrealDBService.tsLe =
      [⟨1, "a", "one", 1⟩, ⟨2, "b", "two", 2⟩, ⟨3, "c", "three", 3⟩] :=
    List.mergeSort_of_sorted (by decide)
  unfold SurrealDBService.getMessagesPure
  rw [hms]
  refine ⟨rfl, by decide, by decide, rfl⟩

/-- C8 amended: `getMessages` takes no cursor; on a store whose timestamps
strictly increase in append order it returns the store with the oldest
entries dropped down to the newest `limit` (for `limit ≥ 1`); the result is
ordered oldest first and its length never exceeds `limit`. -/
theorem getMessages_window (stored : List ChatMessage) (limit : Nat)
    (hs : stored.Pairwise fun a b => a.timestamp < b.timestamp)
    (hl : 1 ≤ limit) :
    SurrealDBService.getMessagesPure limit stored =
      stored.drop (stored.length - limit)
    ∧ (SurrealDBService.getMessagesPure limit stored).length ≤ limit
    ∧ (SurrealDBService.getMessagesPure limit stored).Pairwise
        (fun a b => a.timestamp ≤ b.timestamp) := by
  have hsort : stored.mergeSort SurrealDBService.tsLe = stored := by
    apply List.mergeSort_of_sorted
    exact hs.imp fun {a b} hab => by
      simp [SurrealDBService.tsLe]
      omega
  have h0 : ¬ limit = 0 := by omega
  have heq : SurrealDBService.getMessagesPure limit stored =
      stored.drop (stored.length - limit) := by
    unfold SurrealDBService.getMessagesPure SurrealDBService.jsSliceLast
    rw [hsort]
    simp [h0]
  refine ⟨heq, ?_, ?_⟩
  · rw [heq, List.length_drop]
    omega
  · rw [heq]
    exact ((hs.sublist (List.drop_sublist _ _)).imp fun hab => le_of_lt hab)

/-- Concrete instance of `getMessages_window` — the spec's scenario: after
appending ("alice","hi") then ("bob","yo"), a read from the start returns the
two messages oldest first. -/
theorem getMessages_window_witness :
    SurrealDBService.getMessagesPure 50
        [⟨1, "alice", "hi", 1⟩, ⟨2, "bob", "yo", 2⟩] =
      [⟨1, "alice", "hi", 1⟩, ⟨2, "bob", "yo", 2⟩] := by
  have h := getMessages_window [⟨1, "alice", "hi", 1⟩, ⟨2, "bob", "yo", 2⟩] 50
    (by decide) (by decide)
  simpa using h.1

namespace SurrealDBService

/-- When every configuration in the remaining list fails, the loop records
one failed-and-closed attempt per configuration and ends up throwing the
aggregate error built from the accumulated `errors` array. -/
theorem connectFrom_all_fail (env : AttemptEnv) (f : ConnConfig → String) :
    ∀ (cs : List ConnConfig) (errs : List String),
      (∀ c ∈ cs, tryConfig env c = .error (f c)) →
      connectFrom env cs errs =
        ((cs.map fun c => ⟨c, .error (f c), true⟩),
         .failure (finalFailureMessage
           (errs ++ cs.map fun c => attemptErrorEntry c (f c))))
  | [], errs, _ => by simp [connectFrom]
  | c :: cs, errs, h => by
    have hc : tryConfig env c = .error (f c) := h c (List.mem_cons_self c cs)
    have ih := connectFrom_all_fail env f cs
      (errs ++ [attemptErrorEntry c (f c)])
      (fun c' hc' => h c' (List.mem_cons_of_mem c hc'))
    simp only [connectFrom, hc, ih, List.map_cons]
    rw [List.append_assoc, List.singleton_append]

/-- When the first `k` configurations fail and the `k`-th succeeds, the loop
attempts exactly the first `k+1` configurations in listed order, closes the
partial connection after each of the first `k` (failed) attempts, does not
close after the successful one, and returns that configuration's success. -/
theorem connectFrom_first_success (env : AttemptEnv) :
    ∀ (cs : List ConnConfig) (errs : List String) (k : Nat)
      (hk : k < cs.length),
      (∀ i (hi : i < k),
        ∃ e, tryConfig env (cs.get ⟨i, Nat.lt_trans hi hk⟩) = .error e) →
      tryConfig env (cs.get ⟨k, hk⟩) = .ok () →
      ((connectFrom env cs errs).1.map (fun a => a.cfg) = cs.take (k + 1)
       ∧ (∀ a ∈ (connectFrom env cs errs).1.dropLast,
            a.closedAfter = true ∧ ∃ e, a.outcome = .error e)
       ∧ (connectFrom env cs errs).1.getLast? =
           some ⟨cs.get ⟨k, hk⟩, .ok (), false⟩
       ∧ (connectFrom env cs errs).2 = .success (cs.get ⟨k, hk⟩))
  | [], _, k, hk, _, _ => absurd hk (by simp)
  | c :: cs, errs, 0, hk, _, hsucc => by
    simp only [List.get] at hsucc
    simp [connectFrom, hsucc]
  | c :: cs, errs, k + 1, hk, hfail, hsucc => by
    obtain ⟨e, he⟩ := hfail 0 (Nat.succ_pos k)
    simp only [List.get] at he hsucc
    have hk' : k < cs.length := Nat.lt_of_succ_lt_succ hk
    have ih := connectFrom_first_success env cs
      (errs ++ [attemptErrorEntry c e]) k hk'
      (fun i hi => by
        obtain ⟨e', he'⟩ := hfail (i + 1) (Nat.succ_lt_succ hi)
        exact ⟨e', he'⟩)
      hsucc
    obtain ⟨ih1, ih2, ih3, ih4⟩ := ih
    have hlen : (connectFrom env cs (errs ++ [attemptErrorEntry c e])).1.length
        = k + 1 := by
      have := congrArg List.length ih1
      simpa [List.length_take, Nat.min_eq_left (Nat.succ_le_of_lt hk')]
        using this
    have hne : (connectFrom env cs (errs ++ [attemptErrorEntry c e])).1 ≠ [] := by
      intro hnil
      rw [hnil] at hlen
      simp at hlen
    refine ⟨?_, ?_, ?_, ?_⟩
    · simp only [connectFrom, he, List.map_cons, List.take, ih1]
    · intro a ha
      simp only [connectFrom, he] at ha
      rw [List.dropLast_cons_of_ne_nil hne] at ha
      rcases List.mem_cons.mp ha with h1 | h2
      · subst h1
        exact ⟨rfl, e, rfl⟩
      · exact ih2 a h2
    · simp only [connectFrom, he]
      obtain ⟨b, t, hbt⟩ := List.exists_cons_of_ne_nil hne
      rw [hbt] at ih3 ⊢
      rwa [List.getLast?_cons_cons]
    · simp only [connectFrom, he, ih4]
      rfl

end SurrealDBService

/-- A demonstration environment: the first two configurations fail at the
`db.connect` stage, the third succeeds in full. -/
def demoEnv : SurrealDBService.AttemptEnv :=
  ⟨fun c => if c.url = "ws://127.0.0.1:8000/rpc" ∧ c.type = "WebSocket" then
      .ok () else .error "connection refused",
   fun _ => .ok (), fun _ => .ok (), fun _ => .ok (), fun _ => .ok ()⟩

/-- An environment in which every attempt fails, the first with cause
"alpha" and the others with cause "omega". -/
def envAllFailA : SurrealDBService.AttemptEnv :=
  ⟨fun c => if c.url = "ws://localhost:8000/rpc" ∧ c.type = "WebSocket" then
      .error "alpha" else .error "omega",
   fun _ => .ok (), fun _ => .ok (), fun _ => .ok (), fun _ => .ok ()⟩

/-- Like `envAllFailA` but the first attempt fails with cause "beta". -/
def envAllFailB : SurrealDBService.AttemptEnv :=
  ⟨fun c => if c.url = "ws://localhost:8000/rpc" ∧ c.type = "WebSocket" then
      .error "beta" else .error "omega",
   fun _ => .ok (), fun _ => .ok (), fun _ => .ok (), fun _ => .ok ()⟩

/-- C6 counterexample: two all-attempts-fail runs whose individual failure
causes differ (first attempt: "alpha" vs "beta") raise the very same
aggregate error, so the raised error cannot report the list of individual
causes — it embeds only the last one; the full list is only logged. -/
theorem connect_error_drops_causes_cex :
    (SurrealDBService.connect envAllFailA).2 =
      (SurrealDBService.connect envAllFailB).2
    ∧ (SurrealDBService.connect envAllFailA).1.head?.map
        (fun a => a.outcome) = some (.error "alpha")
    ∧ (SurrealDBService.connect envAllFailB).1.head?.map
        (fun a => a.outcome) = some (.error "beta") :=
  ⟨rfl, rfl, rfl⟩

/-- C6 amended: when every entry of the endpoint list fails, `connect`
raises a single aggregate error, but its message embeds only the LAST
attempt's cause (`errors[errors.length - 1]`), not the list of individual
causes (those are only written to the console); no attempt is bounded by
any timeout.  The trace still records one failed-and-closed attempt per
configuration. -/
theorem connect_all_fail_reports_only_last (env : SurrealDBService.AttemptEnv)
    (f : SurrealDBService.ConnConfig → String)
    (h : ∀ c ∈ SurrealDBService.connectionConfigs,
      SurrealDBService.tryConfig env c = .error (f c)) :
    (SurrealDBService.connect env).1 =
      SurrealDBService.connectionConfigs.map
        (fun c => ⟨c, .error (f c), true⟩)
    ∧ (SurrealDBService.connect env).2 =
      .failure ("All connection attempts failed. Server is running, but client connection failed. Check browser console for detailed errors. Last error: "
        ++ SurrealDBService.attemptErrorEntry
            ⟨"http://localhost:8000", "HTTP-Basic"⟩
            (f ⟨"http://localhost:8000", "HTTP-Basic"⟩)) := by
  have hall := SurrealDBService.connectFrom_all_fail env f
    SurrealDBService.connectionConfigs [] h
  unfold SurrealDBService.connect
  rw [hall]
  refine ⟨rfl, ?_⟩
  simp [SurrealDBService.finalFailureMessage, SurrealDBService.connectionConfigs]

/-- Concrete instance of `connect_all_fail_reports_only_last`. -/
theorem connect_all_fail_reports_only_last_witness :
    (SurrealDBService.connect envAllFailA).2 =
      .failure ("All connection attempts failed. Server is running, but client connection failed. Check browser console for detailed errors. Last error: "
        ++ SurrealDBService.attemptErrorEntry
            ⟨"http://localhost:8000", "HTTP-Basic"⟩ "omega") := by
  have h := connect_all_fail_reports_only_last envAllFailA
    (fun c => if c.url = "ws://localhost:8000/rpc" ∧ c.type = "WebSocket" then
      "alpha" else "omega")
    (by intro c hc; fin_cases hc <;> rfl)
  exact h.2

/-- C7: `connect` is a linear retry loop over the fixed six-entry
configuration list: when the first `k` attempt bodies fail and the `k`-th
fully succeeds, it attempts exactly the first `k+1` configurations in listed
order, closes the partial connection after each failed attempt (and never
after the successful one), returns that configuration's success, and never
touches any later entry. -/
theorem connect_linear_retry (env : SurrealDBService.AttemptEnv) (k : Nat)
    (hk : k < SurrealDBService.connectionConfigs.length)
    (hfail : ∀ i (hi : i < k), ∃ e,
      SurrealDBService.tryConfig env
        (SurrealDBService.connectionConfigs.get ⟨i, Nat.lt_trans hi hk⟩) =
        .error e)
    (hsucc : SurrealDBService.tryConfig env
      (SurrealDBService.connectionConfigs.get ⟨k, hk⟩) = .ok ()) :
    SurrealDBService.connectionConfigs.length = 6
    ∧ (SurrealDBService.connect env).1.map (fun a => a.cfg) =
        SurrealDBService.connectionConfigs.take (k + 1)
    ∧ (∀ a ∈ (SurrealDBService.connect env).1.dropLast,
        a.closedAfter = true ∧ ∃ e, a.outcome = .error e)
    ∧ (SurrealDBService.connect env).1.getLast? =
        some ⟨SurrealDBService.connectionConfigs.get ⟨k, hk⟩, .ok (), false⟩
    ∧ (SurrealDBService.connect env).2 =
        .success (SurrealDBService.connectionConfigs.get ⟨k, hk⟩) := by
  have h := SurrealDBService.connectFrom_first_success env
    SurrealDBService.connectionConfigs [] k hk hfail hsucc
  exact ⟨rfl, h.1, h.2.1, h.2.2.1, h.2.2.2⟩

/-- Concrete instance of `connect_linear_retry`: with the first two attempts
failing and the third succeeding, exactly three configurations are attempted
and the third is returned. -/
theorem connect_linear_retry_witness :
    (SurrealDBService.connect demoEnv).2 =
      .success ⟨"ws://127.0.0.1:8000/rpc", "WebSocket"⟩
    ∧ (SurrealDBService.connect demoEnv).1.map (fun a => a.cfg) =
        SurrealDBService.connectionConfigs.take 3 := by
  have h := connect_linear_retry demoEnv 2 (by decide)
    (by intro i hi
        interval_cases i <;> exact ⟨"connection refused", rfl⟩)
    rfl
  exact ⟨h.2.2.2.2, h.2.1⟩

theorem runEvents_append (xs ys : List JoinEvent) :
    ∀ s, runEvents (xs ++ ys) s = runEvents ys (runEvents xs s) := by
  induction xs with
  | nil => intro s; rfl
  | cons e es ih => intro s; simp [runEvents, ih]

/-- Every record stored by a run of consecutive creations carries the clock
value at its creation: ids equal timestamps and lie in `[c, c + length)`. -/
theorem mkMsgs_bounds :
    ∀ (ps : List (String × String)) (c : Nat) (m : ChatMessage),
      m ∈ mkMsgs c ps →
      m.id = m.timestamp ∧ c ≤ m.id ∧ m.id < c + ps.length
  | [], _, m, hm => absurd hm (by simp [mkMsgs])
  | p :: ps, c, m, hm => by
    rcases List.mem_cons.mp hm with h1 | h2
    · subst h1
      simp
    · have := mkMsgs_bounds ps (c + 1) m h2
      obtain ⟨h3, h4, h5⟩ := this
      simp only [List.length_cons]
      refine ⟨h3, by omega, by omega⟩

theorem mkMsgs_length :
    ∀ (ps : List (String × String)) (c : Nat), (mkMsgs c ps).length = ps.length
  | [], _ => rfl
  | _ :: ps, c => by simp [mkMsgs, mkMsgs_length ps (c + 1)]

theorem mkMsgs_pairwise :
    ∀ (ps : List (String × String)) (c : Nat),
      (mkMsgs c ps).Pairwise (fun a b => a.id < b.id)
  | [], _ => List.Pairwise.nil
  | p :: ps, c => by
    refine List.Pairwise.cons ?_ (mkMsgs_pairwise ps (c + 1))
    intro m hm
    have := (mkMsgs_bounds ps (c + 1) m hm).2.1
    simpa using this

theorem mkMsgs_ts_pairwise (ps : List (String × String)) (c : Nat) :
    (mkMsgs c ps).Pairwise (fun a b => a.timestamp < b.timestamp) := by
  have hp := mkMsgs_pairwise ps c
  refine hp.imp_of_mem ?_
  intro a b ha hb h
  have h1 := (mkMsgs_bounds ps c a ha).1
  have h2 := (mkMsgs_bounds ps c b hb).1
  omega

/-- External creations while the component's live query is not yet
registered append to the log and advance the clock, but deliver nothing to
the component. -/
theorem runEvents_appends_unsub :
    ∀ (ps : List (String × String)) (s : ClientSys), s.subUuid = none →
      runEvents (appendEvents ps) s =
        { s with svc := { s.svc with
            log := s.svc.log ++ mkMsgs s.svc.clock ps,
            clock := s.svc.clock + ps.length } }
  | [], s, _ => by simp [appendEvents, runEvents, mkMsgs]
  | p :: ps, s, h => by
    have hstep : stepEvent s (.extCreate p.1 p.2) =
        { s with svc := { s.svc with
            log := s.svc.log ++ [⟨s.svc.clock, p.1, p.2, s.svc.clock⟩],
            clock := s.svc.clock + 1 } } := by
      unfold stepEvent SurrealDBService.dbCreate SurrealDBService.mkRecord
      simp [h]
    have ih := runEvents_appends_unsub ps
      { s with svc := { s.svc with
          log := s.svc.log ++ [⟨s.svc.clock, p.1, p.2, s.svc.clock⟩],
          clock := s.svc.clock + 1 } } (by simpa using h)
    show runEvents (appendEvents ps) (stepEvent s (.extCreate p.1 p.2)) = _
    rw [hstep, ih]
    simp [mkMsgs]
    omega

/-- External creations while the component's live query is registered append
to the log and are each also delivered to the component's `messages` state,
in order. -/
theorem runEvents_appends_sub :
    ∀ (ps : List (String × String)) (s : ClientSys) (u : Nat),
      s.subUuid = some u → u ∈ s.svc.live →
      runEvents (appendEvents ps) s =
        { s with
            svc := { s.svc with
              log := s.svc.log ++ mkMsgs s.svc.clock ps,
              clock := s.svc.clock + ps.length },
            view := s.view ++ mkMsgs s.svc.clock ps }
  | [], s, u, _, _ => by simp [appendEvents, runEvents, mkMsgs]
  | p :: ps, s, u, h, hu => by
    have hstep : stepEvent s (.extCreate p.1 p.2) =
        { s with
            svc := { s.svc with
              log := s.svc.log ++ [⟨s.svc.clock, p.1, p.2, s.svc.clock⟩],
              clock := s.svc.clock + 1 },
            view := s.view ++ [⟨s.svc.clock, p.1, p.2, s.svc.clock⟩] } := by
      unfold stepEvent SurrealDBService.dbCreate SurrealDBService.mkRecord
      simp [h, hu, SurrealDBService.liveHandlerFires]
    have ih := runEvents_appends_sub ps
      { s with
          svc := { s.svc with
            log := s.svc.log ++ [⟨s.svc.clock, p.1, p.2, s.svc.clock⟩],
            clock := s.svc.clock + 1 },
          view := s.view ++ [⟨s.svc.clock, p.1, p.2, s.svc.clock⟩] } u
      (by simpa using h) (by simpa using hu)
    show runEvents (appendEvents ps) (stepEvent s (.extCreate p.1 p.2)) = _
    rw [hstep, ih]
    simp [mkMsgs]
    omega

/-- The history snapshot on a connected state whose log is
timestamp-ordered and holds at most 50 records replaces the component's
`messages` with the whole log. -/
theorem stepEvent_snapshot (s : ClientSys) (hc : s.svc.connected = true)
    (hs : s.svc.log.Pairwise (fun a b => a.timestamp < b.timestamp))
    (hl : s.svc.log.length ≤ 50) :
    stepEvent s .snapshotRead = { s with view := s.svc.log } := by
  have hsort : s.svc.log.mergeSort SurrealDBService.tsLe = s.svc.log := by
    apply List.mergeSort_of_sorted
    exact hs.imp fun {a b} hab => by
      simp [SurrealDBService.tsLe]
      omega
  unfold stepEvent SurrealDBService.getMessages SurrealDBService.getMessagesPure
    SurrealDBService.jsSliceLast
  rw [hsort]
  have h50 : s.svc.log.length - 50 = 0 := by omega
  simp [hc, h50]

/-- Registering the live query on a connected state stores the fresh query
id in `subscriptionRef` and marks the session joined. -/
theorem stepEvent_subscribe (s : ClientSys) (hc : s.svc.connected = true) :
    stepEvent s .subscribeLive =
      { s with
          svc := { s.svc with
            live := s.svc.live ++ [s.svc.nextUuid],
            nextUuid := s.svc.nextUuid + 1 },
          subUuid := some s.svc.nextUuid, isJoined := true } := by
  unfold stepEvent SurrealDBService.subscribeToMessages
  simp [hc]

/-- C1 counterexample: the history snapshot (taken in `initConnection`) and
the live-query registration (taken later, in `joinChat`) are NOT atomic: a
message created between the two is neither in the snapshot nor delivered
live.  Here "eve"'s message (sequence 1, above the join cursor 0) ends up in
the log but never in the component's message list, while "bob"'s
post-subscription message is delivered — the message at the join boundary is
lost. -/
theorem join_boundary_loses_message_cex :
    (runEvents [JoinEvent.snapshotRead, JoinEvent.extCreate "eve" "lost",
        JoinEvent.subscribeLive, JoinEvent.extCreate "bob" "later"]
        initSys).svc.log =
      [⟨1, "eve", "lost", 1⟩, ⟨2, "bob", "later", 2⟩]
    ∧ (runEvents [JoinEvent.snapshotRead, JoinEvent.extCreate "eve" "lost",
        JoinEvent.subscribeLive, JoinEvent.extCreate "bob" "later"]
        initSys).view =
      [⟨2, "bob", "later", 2⟩]
    ∧ (⟨1, "eve", "lost", 1⟩ : ChatMessage) ∉
        (runEvents [JoinEvent.snapshotRead, JoinEvent.extCreate "eve" "lost",
          JoinEvent.subscribeLive, JoinEvent.extCreate "bob" "later"]
          initSys).view := by
  have e1 : stepEvent initSys .snapshotRead = initSys := by
    have h := stepEvent_snapshot initSys rfl (by simp [initSys]) (by simp [initSys])
    simpa [initSys] using h
  have hrun : runEvents [JoinEvent.snapshotRead, JoinEvent.extCreate "eve" "lost",
      JoinEvent.subscribeLive, JoinEvent.extCreate "bob" "later"] initSys =
      runEvents [JoinEvent.extCreate "eve" "lost", JoinEvent.subscribeLive,
        JoinEvent.extCreate "bob" "later"] initSys := by
    show runEvents [JoinEvent.extCreate "eve" "lost", JoinEvent.subscribeLive,
      JoinEvent.extCreate "bob" "later"] (stepEvent initSys .snapshotRead) = _
    rw [e1]
  refine ⟨?_, ?_, ?_⟩
  · rw [hrun]; rfl
  · rw [hrun]; rfl
  · rw [hrun]; decide

/-- C1 amended: the exactly-once guarantee holds only when no append
interleaves between the snapshot read and the subscription registration:
for any run `pre-appends; snapshot; subscribe; post-appends` from a fresh
connected state with at most 50 preceding messages, the component ends with
its message list equal to the full log — every message with sequence number
above the join cursor, in order — and the strictly increasing sequence
numbers show each is delivered exactly once. -/
theorem join_no_interleave_exactly_once (pre post : List (String × String))
    (h : pre.length ≤ 50) :
    runEvents (appendEvents pre ++ [JoinEvent.snapshotRead,
        JoinEvent.subscribeLive] ++ appendEvents post) initSys =
      ⟨⟨true, mkMsgs 1 pre ++ mkMsgs (1 + pre.length) post,
        1 + pre.length + post.length, [0], 1⟩, some 0,
       mkMsgs 1 pre ++ mkMsgs (1 + pre.length) post, true⟩
    ∧ (mkMsgs 1 pre ++ mkMsgs (1 + pre.length) post).Pairwise
        (fun a b => a.id < b.id) := by
  constructor
  · have e1 : runEvents (appendEvents pre) initSys =
        (⟨⟨true, mkMsgs 1 pre, 1 + pre.length, [], 0⟩, none, [], false⟩ :
          ClientSys) :=
      runEvents_appends_unsub pre initSys rfl
    have e2 : stepEvent (⟨⟨true, mkMsgs 1 pre, 1 + pre.length, [], 0⟩, none,
        [], false⟩ : ClientSys) .snapshotRead =
        ⟨⟨true, mkMsgs 1 pre, 1 + pre.length, [], 0⟩, none, mkMsgs 1 pre,
          false⟩ :=
      stepEvent_snapshot _ rfl (mkMsgs_ts_pairwise pre 1)
        (by simpa [mkMsgs_length] using h)
    have e3 : stepEvent (⟨⟨true, mkMsgs 1 pre, 1 + pre.length, [], 0⟩, none,
        mkMsgs 1 pre, false⟩ : ClientSys) .subscribeLive =
        ⟨⟨true, mkMsgs 1 pre, 1 + pre.length, [0], 1⟩, some 0, mkMsgs 1 pre,
          true⟩ :=
      stepEvent_subscribe _ rfl
    have e4 : runEvents (appendEvents post)
        (⟨⟨true, mkMsgs 1 pre, 1 + pre.length, [0], 1⟩, some 0, mkMsgs 1 pre,
          true⟩ : ClientSys) =
        ⟨⟨true, mkMsgs 1 pre ++ mkMsgs (1 + pre.length) post,
          1 + pre.length + post.length, [0], 1⟩, some 0,
         mkMsgs 1 pre ++ mkMsgs (1 + pre.length) post, true⟩ :=
      runEvents_appends_sub post _ 0 rfl (by simp)
    rw [runEvents_append, runEvents_append, e1]
    show runEvents (appendEvents post)
      (stepEvent (stepEvent (⟨⟨true, mkMsgs 1 pre, 1 + pre.length, [], 0⟩,
        none, [], false⟩ : ClientSys) .snapshotRead) .subscribeLive) = _
    rw [e2, e3, e4]
  · rw [List.pairwise_append]
    refine ⟨mkMsgs_pairwise pre 1, mkMsgs_pairwise post (1 + pre.length), ?_⟩
    intro a ha b hb
    have h1 := (mkMsgs_bounds pre 1 a ha).2.2
    have h2 := (mkMsgs_bounds post (1 + pre.length) b hb).2.1
    omega

/-- Concrete instance of `join_no_interleave_exactly_once` — the spec's
scenario with no append at the boundary: "alice" before the join, "bob"
after it; the component sees both messages, in order, exactly once. -/
theorem join_no_interleave_witness :
    runEvents (appendEvents [("alice", "hi")] ++ [JoinEvent.snapshotRead,
        JoinEvent.subscribeLive] ++ appendEvents [("bob", "yo")]) initSys =
      ⟨⟨true, [⟨1, "alice", "hi", 1⟩, ⟨2, "bob", "yo", 2⟩], 3, [0], 1⟩,
       some 0, [⟨1, "alice", "hi", 1⟩, ⟨2, "bob", "yo", 2⟩], true⟩ := by
  have h := join_no_interleave_exactly_once [("alice", "hi")] [("bob", "yo")]
    (by decide)
  exact h.1

/-- Concrete instance of `unsubscribe_idempotent_stops_delivery`. -/
theorem unsubscribe_idempotent_witness :
    SurrealDBService.unsubscribe
        (SurrealDBService.unsubscribe ⟨true, [], 1, [7, 8], 2⟩ 7) 7 =
      SurrealDBService.unsubscribe ⟨true, [], 1, [7, 8], 2⟩ 7
    ∧ 7 ∉ SurrealDBService.liveTargets
        (SurrealDBService.unsubscribe ⟨true, [], 1, [7, 8], 2⟩ 7) :=
  ⟨(unsubscribe_idempotent_stops_delivery ⟨true, [], 1, [7, 8], 2⟩ 7).1,
   (unsubscribe_idempotent_stops_delivery ⟨true, [], 1, [7, 8], 2⟩ 7).2.1⟩
